import Mathlib

/-!
Verification of the student-roster chat bot (`database.py` and `bot.py`).

The store (a Postgres table keyed by `(user_id, student_number)`) is modelled
as a list of rows; each SQL statement of `database.py` becomes a pure function
on that list.  `ORDER BY` is modelled by `List.mergeSort` on the selected
column, and the `LIKE` pattern match of `find_students` is modelled by an
explicit pattern matcher `likeMatch` with the `%`, `_` wildcards and the
backslash escape of Postgres.  The conversation handlers of `bot.py` become
pure transition functions over an explicit conversation state.
-/

/-- A row of the `students` table (`database.py`, `init_db`):
`user_id BIGINT, student_number TEXT, student_name TEXT, created_at TIMESTAMP`.
The timestamp is modelled as a `Nat` supplied by the caller at insert time. -/
structure StudentRow where
  user_id : Int
  student_number : String
  student_name : String
  created_at : Nat
deriving Repr, DecidableEq

/-- The `students` table: a list of rows. -/
abbrev Students := List StudentRow

/-- The primary-key test for `(user_id, student_number)`. -/
def keyMatch (uid : Int) (number : String) (r : StudentRow) : Bool :=
  r.user_id == uid && r.student_number == number

/-- `Database.add_student`: `INSERT ... ON CONFLICT (user_id, student_number)
DO UPDATE SET student_name = EXCLUDED.student_name`.  On conflict only the
name is overwritten; `created_at` keeps its `DEFAULT CURRENT_TIMESTAMP` value
from the original insert.  `now` is the current timestamp used for a fresh
insert. -/
def add_student (db : Students) (now : Nat) (uid : Int) (number name : String) : Students :=
  if db.any (keyMatch uid number) then
    db.map (fun r => if keyMatch uid number r then
      { r with student_name := name } else r)
  else
    db ++ [⟨uid, number, name, now⟩]

/-- The `order_by` validation shared by `get_students` and `find_students`
(`database.py` lines 55-57 and 72-74): a value outside
`{student_number, student_name}` is replaced by `"student_number"` before it
is interpolated into the SQL text. -/
def interpolated_order (order_by : String) : String :=
  if order_by = "student_number" || order_by = "student_name" then order_by
  else "student_number"

/-- The column selected by an (already validated) `ORDER BY` column name. -/
def orderKey (col : String) (r : StudentRow) : String :=
  if col = "student_name" then r.student_name else r.student_number

/-- Lexicographic comparison of code-point sequences, modelling ascending
`ORDER BY` on a text column. -/
def natListLe : List Nat → List Nat → Bool
  | [], _ => true
  | _ :: _, [] => false
  | a :: as, b :: bs => decide (a < b) || (decide (a = b) && natListLe as bs)

/-- The code points of a string, in order. -/
def strCode (s : String) : List Nat :=
  s.data.map Char.toNat

/-- The row ordering used to model `ORDER BY col` (ascending). -/
def rowRel (col : String) (a b : StudentRow) : Prop :=
  natListLe (strCode (orderKey col a)) (strCode (orderKey col b)) = true

instance (col : String) : DecidableRel (rowRel col) :=
  fun a b => inferInstanceAs
    (Decidable (natListLe (strCode (orderKey col a)) (strCode (orderKey col b)) = true))

/-- `Database.get_students`: all rows of one user, `ORDER BY` the validated
column, ascending. -/
def get_students (db : Students) (uid : Int) (order_by : String) : Students :=
  (db.filter (fun r => r.user_id == uid)).insertionSort
    (rowRel (interpolated_order order_by))

/-- Lower-casing used to model both Python `str.lower()` and SQL `LOWER`. -/
def lowerChars (s : String) : List Char :=
  s.data.map Char.toLower

/-- A lexed Postgres `LIKE` pattern element: the `%` wildcard, the `_`
wildcard, or a literal character (possibly produced by the backslash
escape). -/
inductive LikeTok where
  | pct
  | uscore
  | lit (c : Char)
deriving Repr, DecidableEq

/-- Lexing a raw `LIKE` pattern: a backslash escapes the following
character into a literal, `%` and `_` are the wildcards, anything else is a
literal.  (A trailing lone backslash is an error in Postgres; it cannot
arise here because `find_students` always appends `%`.) -/
def likeLex : List Char → List LikeTok
  | [] => []
  | [c] =>
    if c = '\\' then []
    else if c = '%' then [LikeTok.pct]
    else if c = '_' then [LikeTok.uscore]
    else [LikeTok.lit c]
  | c :: d :: rest =>
    if c = '\\' then LikeTok.lit d :: likeLex rest
    else if c = '%' then LikeTok.pct :: likeLex (d :: rest)
    else if c = '_' then LikeTok.uscore :: likeLex (d :: rest)
    else LikeTok.lit c :: likeLex (d :: rest)

/-- Matching a lexed `LIKE` pattern: `%` matches when the rest of the
pattern matches some suffix of the string, `_` consumes any one character,
a literal must equal the next character. -/
def likeTokMatch : List LikeTok → List Char → Bool
  | [], s => s.isEmpty
  | LikeTok.pct :: ps, s => s.tails.any (fun t => likeTokMatch ps t)
  | LikeTok.uscore :: _, [] => false
  | LikeTok.uscore :: ps, _ :: cs => likeTokMatch ps cs
  | LikeTok.lit _ :: _, [] => false
  | LikeTok.lit p :: ps, c :: cs => p == c && likeTokMatch ps cs

/-- Postgres `LIKE` matching of a raw pattern against a string, both given
as character lists. -/
def likeMatch (p s : List Char) : Bool :=
  likeTokMatch (likeLex p) s

/-- The `WHERE` clause of `Database.find_students`:
`student_number = %s OR LOWER(student_name) LIKE %s` with the second
parameter bound to `"%" + query.lower() + "%"`. -/
def findMatch (q : String) (r : StudentRow) : Bool :=
  r.student_number == q ||
    likeMatch ('%' :: (lowerChars q ++ ['%'])) (lowerChars r.student_name)

/-- `Database.find_students`: rows of one user matching the number exactly or
the name by the lower-cased `LIKE` pattern, ordered by the validated column. -/
def find_students (db : Students) (uid : Int) (q : String) (order_by : String) : Students :=
  (db.filter (fun r => r.user_id == uid && findMatch q r)).insertionSort
    (rowRel (interpolated_order order_by))

/-- `Database.delete_student`: `DELETE ... WHERE user_id = %s AND
student_number = %s`, returning the remaining table and whether
`cur.rowcount > 0`. -/
def delete_student (db : Students) (uid : Int) (number : String) : Students × Bool :=
  (db.filter (fun r => !(keyMatch uid number r)),
   decide (0 < db.countP (fun r => keyMatch uid number r)))

/-! ## The bot layer (`bot.py`) -/

/-- `DEFAULT_SORT_ORDER` (`bot.py` line 37). -/
def DEFAULT_SORT_ORDER : String := "student_number"

/-- The conversation states of `bot.py` (the edit states are declared but
unused), plus `idle` for "no conversation active"
(`ConversationHandler.END`). -/
inductive ConvState where
  | idle
  | waiting_for_number
  | waiting_for_name
  | waiting_for_delete_identifier
  | waiting_for_delete_confirmation
deriving Repr, DecidableEq

/-- The `context.user_data` fields the handlers use. -/
structure UserData where
  temp_number : Option String
  delete_candidates : Option (List (String × String))
  list_sort_order : Option String
deriving Repr, DecidableEq

/-- Python `str.isdigit` restricted to the ASCII digits: true exactly for a
non-empty string of digit characters. -/
def py_isdigit (s : String) : Bool :=
  !s.isEmpty && s.data.all Char.isDigit

/-- `handle_number`: a non-digit reply re-prompts and stays in
`WAITING_FOR_NUMBER`; a digit reply is stored as `temp_number` and the
conversation moves to `WAITING_FOR_NAME`. -/
def handle_number (text : String) (ud : UserData) : ConvState × UserData :=
  if !(py_isdigit text) then (ConvState.waiting_for_number, ud)
  else (ConvState.waiting_for_name, { ud with temp_number := some text })

/-- `handle_name`: pops `temp_number` (`none` models the `KeyError` of
`pop` on a missing key), upserts the record and ends the conversation. -/
def handle_name (text : String) (ud : UserData) (db : Students) (uid : Int) (now : Nat) :
    Option (ConvState × UserData × Students) :=
  match ud.temp_number with
  | none => none
  | some number =>
    some (ConvState.idle, { ud with temp_number := none },
      add_student db now uid number text)

/-- `cancel`: deletes `temp_number` and `delete_candidates` from
`user_data` (and nothing else) and ends the conversation. -/
def cancel (ud : UserData) : ConvState × UserData :=
  (ConvState.idle, { ud with temp_number := none, delete_candidates := none })

/-- `escape_markdown`'s reserved set, the characters of
`"_*[]()~\x60>#+-=|\x7b\x7d.!"`. -/
def escape_chars : List Char :=
  ['_', '*', '[', ']', '(', ')', '~', '\x60', '>', '#', '+', '-', '=', '|',
   '\x7b', '\x7d', '.', '!']

/-- `escape_markdown`: prefixes every reserved character with a backslash. -/
def escape_markdown (s : String) : String :=
  String.mk (s.data.flatMap (fun c => if c ∈ escape_chars then ['\\', c] else [c]))

/-- Python's `f"{s:<w}"`: left-align `s` in a field of at least `w`
characters (never truncates). -/
def padTo (s : String) (w : Nat) : String :=
  s ++ String.mk (List.replicate (w - s.length) ' ')

/-- Python's `s[:n]` character slice. -/
def strTake (s : String) (n : Nat) : String :=
  String.mk (s.data.take n)

/-- The table header row of `format_student_list`. -/
def table_header : String :=
  "\x60" ++ padTo "#" 4 ++ padTo "ID" 15 ++ padTo "Name" 20 ++ "\x60\n"

/-- The table separator row of `format_student_list`. -/
def table_separator : String :=
  "\x60" ++ String.mk (List.replicate 4 '-' ++ List.replicate 15 '-' ++ List.replicate 20 '-')
    ++ "\x60\n"

/-- One table row of `format_student_list`: the 1-based index, the escaped
number sliced to 15 characters, the escaped name sliced to 20 characters,
each left-aligned, between backticks. -/
def format_row (idx : Nat) (r : StudentRow) : String :=
  "\x60" ++ padTo (escape_markdown (toString idx)) 4
    ++ padTo (strTake (escape_markdown r.student_number) 15) 15
    ++ padTo (strTake (escape_markdown r.student_name) 20) 20 ++ "\x60"

/-- The `for i, student in enumerate(students, 1)` loop of
`format_student_list`. -/
def build_rows : Nat → List StudentRow → List String
  | _, [] => []
  | i, r :: rs => format_row i r :: build_rows (i + 1) rs

/-- The title line of `format_student_list`, naming the sort order with the
underscore replaced by a space. -/
def list_title (sort_order : String) : String :=
  "*Students List* \\(Sorted by "
    ++ escape_markdown (String.mk (sort_order.data.map (fun c => if c = '_' then ' ' else c)))
    ++ "\\)\n\n"

/-- An inline keyboard button (text plus callback payload). -/
structure InlineKeyboardButton where
  text : String
  callback_data : String
deriving Repr, DecidableEq

/-- An inline keyboard: rows of buttons. -/
abbrev InlineKeyboardMarkup := List (List InlineKeyboardButton)

/-- The two-button sort keyboard of `format_student_list`, with the check
mark on whichever order is active. -/
def sort_keyboard (sort_order : String) : InlineKeyboardMarkup :=
  [[⟨"Sort by ID " ++ (if sort_order = "student_number" then "✅" else ""),
      "list_sort_student_number"⟩,
    ⟨"Sort by Name " ++ (if sort_order = "student_name" then "✅" else ""),
      "list_sort_student_name"⟩]]

/-- `format_student_list`: the empty list renders the escaped literal
"No students in the database." with no keyboard; otherwise title, header,
separator and the newline-joined rows, with the sort keyboard. -/
def format_student_list (students : List StudentRow) (sort_order : String) :
    String × Option InlineKeyboardMarkup :=
  if students.isEmpty then
    (escape_markdown "No students in the database.", none)
  else
    (list_title sort_order ++ table_header ++ table_separator
       ++ String.intercalate "\n" (build_rows 1 students),
     some (sort_keyboard sort_order))

/-- The observable outcome of `list_button_callback`: the updated
`user_data`, whether `get_students` was queried, and the edit request (new
text and keyboard) issued to the chat transport, if any. -/
structure CallbackOutcome where
  user_data : UserData
  queried : Bool
  edit_request : Option (String × Option InlineKeyboardMarkup)
deriving Repr, DecidableEq

/-- `list_button_callback`: determine the selected order from the callback
payload; if it equals the current order, return without storing, querying or
editing; otherwise store it, re-query, re-format and request an edit of the
displayed message. -/
def list_button_callback (callback_data : String) (ud : UserData) (db : Students)
    (uid : Int) : CallbackOutcome :=
  let current_sort_order := ud.list_sort_order.getD DEFAULT_SORT_ORDER
  let new_sort_order :=
    if callback_data = "list_sort_student_number" then "student_number"
    else if callback_data = "list_sort_student_name" then "student_name"
    else current_sort_order
  if new_sort_order = current_sort_order then
    ⟨ud, false, none⟩
  else
    ⟨{ ud with list_sort_order := some new_sort_order }, true,
      some (format_student_list (get_students db uid new_sort_order) new_sort_order)⟩

/-- The chat transport's `edit_message_text`: editing a message to content
identical to what is displayed fails with `BadRequest("Message is not
modified")`; otherwise the displayed content is replaced. -/
def edit_message_text (displayed requested : String × Option InlineKeyboardMarkup) :
    Except String (String × Option InlineKeyboardMarkup) :=
  if requested = displayed then Except.error "Message is not modified"
  else Except.ok requested

/-- The `try`/`except` around the edit in `list_button_callback`: a
`BadRequest` (in particular "Message is not modified") is only logged, so
the displayed message stays as it was and no error reaches the user. -/
def attempt_edit (displayed requested : String × Option InlineKeyboardMarkup) :
    String × Option InlineKeyboardMarkup :=
  match edit_message_text displayed requested with
  | Except.ok t => t
  | Except.error _ => displayed

/-- `handle_delete_identifier`: search the owner's records with the reply;
zero matches ends the conversation, one match deletes immediately and ends,
several matches store the number-to-name candidate map and move to the
confirmation state. -/
def handle_delete_identifier (text : String) (ud : UserData) (db : Students)
    (uid : Int) : ConvState × UserData × Students :=
  match find_students db uid text DEFAULT_SORT_ORDER with
  | [] => (ConvState.idle, ud, db)
  | [r] => (ConvState.idle, ud, (delete_student db uid r.student_number).1)
  | results =>
    (ConvState.waiting_for_delete_confirmation,
     { ud with
        delete_candidates := some (results.map (fun r => (r.student_number, r.student_name))) },
     db)

/-- `handle_delete_confirmation_number`: a non-digit reply or a number not
among the stored candidates re-prompts and stays in the confirmation state;
a candidate number is deleted, the candidates are cleared and the
conversation ends. -/
def handle_delete_confirmation_number (text : String) (ud : UserData) (db : Students)
    (uid : Int) : ConvState × UserData × Students :=
  let delete_candidates := ud.delete_candidates.getD []
  if !(py_isdigit text) then
    (ConvState.waiting_for_delete_confirmation, ud, db)
  else if !(delete_candidates.any (fun p => p.1 == text)) then
    (ConvState.waiting_for_delete_confirmation, ud, db)
  else
    (ConvState.idle, { ud with delete_candidates := none },
     (delete_student db uid text).1)

/-! ## Auxiliary notions used by the statements -/

/-- Boolean prefix test, by disjoint structural equations. -/
def isPre : List Char → List Char → Bool
  | [], _ => true
  | _ :: _, [] => false
  | a :: as, b :: bs => a == b && isPre as bs

/-- The spec's notion of matching: the needle occurs contiguously inside the
haystack. -/
def containsSub (needle hay : List Char) : Prop :=
  ∃ pre post, hay = pre ++ needle ++ post

/-- An inbound event relevant to the add conversation: the `/add` command,
the `/cancel` command, or a plain text message. -/
inductive AddEvent where
  | cmd_add
  | cmd_cancel
  | message (text : String)

/-- One step of the add `ConversationHandler` wiring of `main`: `/add`
enters the number-waiting state from idle, `/cancel` is the fallback in any
conversation state, a text message is routed to `handle_number` or
`handle_name` by the current state and is ignored by this conversation
otherwise.  `none` models the `KeyError` crash of `handle_name` when no
pending number exists. -/
def add_step (s : ConvState × UserData × Students) (uid : Int) (now : Nat) :
    AddEvent → Option (ConvState × UserData × Students)
  | AddEvent.cmd_add =>
    match s.1 with
    | ConvState.idle => some (ConvState.waiting_for_number, s.2.1, s.2.2)
    | _ => some s
  | AddEvent.cmd_cancel =>
    match s.1 with
    | ConvState.idle => some s
    | _ => some ((cancel s.2.1).1, (cancel s.2.1).2, s.2.2)
  | AddEvent.message t =>
    match s.1 with
    | ConvState.waiting_for_number =>
      some ((handle_number t s.2.1).1, (handle_number t s.2.1).2, s.2.2)
    | ConvState.waiting_for_name => handle_name t s.2.1 s.2.2 uid now
    | _ => some s

/-- The invariant of the add conversation: a pending number is always a
digit string, the name-waiting state always holds a pending number, and
every stored record number is a digit string. -/
def AddInv (s : ConvState × UserData × Students) : Prop :=
  (∀ n, s.2.1.temp_number = some n → py_isdigit n = true) ∧
  (s.1 = ConvState.waiting_for_name → s.2.1.temp_number ≠ none) ∧
  (∀ r ∈ s.2.2, py_isdigit r.student_number = true)

/-! ## Sanity checks on concrete inputs -/

example : add_student [] 5 7 "42" "Alice" = [⟨7, "42", "Alice", 5⟩] := by decide
example : (add_student (add_student [] 5 7 "42" "Alice") 9 7 "42" "Bob")
    = [⟨7, "42", "Bob", 5⟩] := by decide
example : delete_student [⟨7, "42", "Alice", 5⟩] 7 "42" = ([], true) := by decide
example : delete_student [⟨7, "42", "Alice", 5⟩] 7 "43"
    = ([⟨7, "42", "Alice", 5⟩], false) := by decide
example : find_students [⟨7, "7", "Bob", 0⟩, ⟨7, "1", "ONE7Y", 1⟩] 7 "7" "student_number"
    = [⟨7, "1", "ONE7Y", 1⟩, ⟨7, "7", "Bob", 0⟩] := by decide
example : find_students [⟨7, "1", "Bob", 0⟩] 7 "%" "student_number"
    = [⟨7, "1", "Bob", 0⟩] := by decide
example : find_students [⟨7, "1", "Bob", 0⟩] 7 "o" "student_number"
    = [⟨7, "1", "Bob", 0⟩] := by decide
example : find_students [⟨7, "1", "Bob", 0⟩] 7 "x" "student_number" = [] := by decide

/-! ## Order lemmas for the `ORDER BY` model -/

theorem natListLe_total : ∀ xs ys : List Nat, natListLe xs ys = true ∨ natListLe ys xs = true
  | [], _ => Or.inl rfl
  | _ :: _, [] => Or.inr rfl
  | x :: xs, y :: ys => by
    rcases Nat.lt_trichotomy x y with h | h | h
    · left; simp [natListLe, h]
    · subst h
      rcases natListLe_total xs ys with h' | h'
      · left; simp [natListLe, h']
      · right; simp [natListLe, h']
    · right; simp [natListLe, h]

theorem natListLe_trans : ∀ xs ys zs : List Nat,
    natListLe xs ys = true → natListLe ys zs = true → natListLe xs zs = true
  | [], _, _, _, _ => rfl
  | _ :: _, [], _, h, _ => by simp [natListLe] at h
  | _ :: _, _ :: _, [], _, h => by simp [natListLe] at h
  | x :: xs, y :: ys, z :: zs, h1, h2 => by
    simp only [natListLe, Bool.or_eq_true, Bool.and_eq_true, decide_eq_true_eq] at h1 h2 ⊢
    rcases h1 with h1 | ⟨rfl, h1⟩
    · rcases h2 with h2 | ⟨rfl, h2⟩
      · exact Or.inl (Nat.lt_trans h1 h2)
      · exact Or.inl h1
    · rcases h2 with h2 | ⟨rfl, h2⟩
      · exact Or.inl h2
      · exact Or.inr ⟨rfl, natListLe_trans xs ys zs h1 h2⟩

instance (col : String) : IsTotal StudentRow (rowRel col) :=
  ⟨fun _ _ => natListLe_total _ _⟩

instance (col : String) : IsTrans StudentRow (rowRel col) :=
  ⟨fun _ _ _ => natListLe_trans _ _ _⟩

/-! ## Claims about the store -/

/-- C9: `/cancel` ends the conversation and clears exactly the transient
fields `temp_number` and `delete_candidates`, leaving the remembered
`list_sort_order` untouched. -/
theorem C9_cancel_clears_transient_keeps_sort (ud : UserData) :
    (cancel ud).1 = ConvState.idle ∧
    (cancel ud).2.temp_number = none ∧
    (cancel ud).2.delete_candidates = none ∧
    (cancel ud).2.list_sort_order = ud.list_sort_order :=
  ⟨rfl, rfl, rfl, rfl⟩

/-- C4: `delete_student` reports `true` exactly when a row with the given
`(user_id, student_number)` key was present, and a `false` report means the
table is left entirely unchanged. -/
theorem C4_delete_reports_removal (db : Students) (uid : Int) (number : String) :
    ((delete_student db uid number).2 = true ↔
      ∃ r ∈ db, r.user_id = uid ∧ r.student_number = number) ∧
    ((delete_student db uid number).2 = false → (delete_student db uid number).1 = db) := by
  constructor
  · simp [delete_student, keyMatch, List.countP_pos_iff]
  · intro h
    simp only [delete_student, decide_eq_false_iff_not, Nat.not_lt, Nat.le_zero,
      List.countP_eq_zero] at h
    simpa [delete_student, List.filter_eq_self] using h

/-- Witness for C4 at a concrete table: deleting the absent key `"9"` leaves
the table unchanged. -/
theorem C4_delete_reports_removal_witness :
    (delete_student [⟨7, "42", "Alice", 5⟩] 7 "9").1 = [⟨7, "42", "Alice", 5⟩] :=
  (C4_delete_reports_removal ([⟨7, "42", "Alice", 5⟩] : Students) 7 "9").2 (by decide)

/-- C3: upserting the same key twice leaves exactly one row for that key,
carrying the second name and the creation timestamp of the first insert. -/
theorem C3_upsert_twice_keeps_first_timestamp (db : Students) (t1 t2 : Nat) (uid : Int)
    (number n1 n2 : String)
    (habs : ∀ r ∈ db, keyMatch uid number r = false) :
    (add_student (add_student db t1 uid number n1) t2 uid number n2).filter
        (keyMatch uid number)
      = [⟨uid, number, n2, t1⟩] := by
  have hnot : db.any (keyMatch uid number) = false := by
    rw [List.any_eq_false]
    intro r hr
    simp [habs r hr]
  have h1 : add_student db t1 uid number n1 = db ++ [⟨uid, number, n1, t1⟩] := by
    unfold add_student
    rw [hnot]
    simp
  have hkey : keyMatch uid number ⟨uid, number, n1, t1⟩ = true := by
    simp [keyMatch]
  have hany : (db ++ [(⟨uid, number, n1, t1⟩ : StudentRow)]).any (keyMatch uid number)
      = true := by
    refine List.any_eq_true.mpr ⟨⟨uid, number, n1, t1⟩, ?_, hkey⟩
    simp
  have h2 : add_student (db ++ [(⟨uid, number, n1, t1⟩ : StudentRow)]) t2 uid number n2
      = (db ++ [(⟨uid, number, n1, t1⟩ : StudentRow)]).map
          (fun r => if keyMatch uid number r then { r with student_name := n2 } else r) := by
    unfold add_student
    rw [hany]
    simp
  rw [h1, h2, List.map_append, List.filter_append]
  have hleft : (db.map
      (fun r => if keyMatch uid number r then { r with student_name := n2 } else r)).filter
        (keyMatch uid number) = [] := by
    rw [List.filter_eq_nil_iff]
    intro a ha
    rw [List.mem_map] at ha
    obtain ⟨x, hx, rfl⟩ := ha
    rw [if_neg (by simp [habs x hx])]
    simp [habs x hx]
  rw [hleft]
  simp only [List.map_cons, List.map_nil, List.nil_append]
  rw [if_pos (by exact_mod_cast hkey)]
  simp [keyMatch]

/-- Witness for C3: inserting `(42, Alice)` at time 5 and upserting
`(42, Bob)` at time 9 leaves the single row `(42, Bob)` created at 5. -/
theorem C3_upsert_twice_keeps_first_timestamp_witness :
    (add_student (add_student [] 5 7 "42" "Alice") 9 7 "42" "Bob").filter (keyMatch 7 "42")
      = [⟨7, "42", "Bob", 5⟩] :=
  C3_upsert_twice_keeps_first_timestamp [] 5 9 7 "42" "Alice" "Bob"
    (by intro r hr; cases hr)

/-- `interpolated_order` is idempotent. -/
theorem interpolated_order_idem (ob : String) :
    interpolated_order (interpolated_order ob) = interpolated_order ob := by
  unfold interpolated_order
  by_cases h1 : ob = "student_number"
  · simp [h1]
  · by_cases h2 : ob = "student_name" <;> simp [h1, h2]

/-- C8: only a value of the fixed enum reaches the query construction: the
validated `order_by` is always `student_number` or `student_name`, any
out-of-enum value is coerced to the default, and both query builders behave
as if called with the validated value. -/
theorem C8_order_by_whitelisted (db : Students) (uid : Int) (q ob : String) :
    (interpolated_order ob = "student_number" ∨ interpolated_order ob = "student_name") ∧
    (ob ≠ "student_number" → ob ≠ "student_name" →
      interpolated_order ob = "student_number") ∧
    get_students db uid ob = get_students db uid (interpolated_order ob) ∧
    find_students db uid q ob = find_students db uid q (interpolated_order ob) := by
  refine ⟨?_, ?_, ?_, ?_⟩
  · unfold interpolated_order
    by_cases h1 : ob = "student_number"
    · simp [h1]
    · by_cases h2 : ob = "student_name" <;> simp [h1, h2]
  · intro h1 h2
    simp [interpolated_order, h1, h2]
  · unfold get_students
    rw [interpolated_order_idem]
  · unfold find_students
    rw [interpolated_order_idem]

/-- Witness for C8: an arbitrary out-of-enum string is coerced to the
default column. -/
theorem C8_order_by_whitelisted_witness :
    interpolated_order "student_number; DROP TABLE students" = "student_number" :=
  (C8_order_by_whitelisted [] 0 "" "student_number; DROP TABLE students").2.1
    (by decide) (by decide)

/-- C2: in the number-waiting state a non-digit reply re-prompts and changes
nothing; a digit reply is held as the pending number, and the following
reply upserts exactly one record with that number and name for the owner and
ends the conversation. -/
theorem C2_add_flow (ud : UserData) (db : Students) (uid : Int) (now : Nat)
    (bad number name : String)
    (hbad : py_isdigit bad = false) (hnum : py_isdigit number = true)
    (habs : ∀ r ∈ db, keyMatch uid number r = false) :
    handle_number bad ud = (ConvState.waiting_for_number, ud) ∧
    handle_number number ud
      = (ConvState.waiting_for_name, { ud with temp_number := some number }) ∧
    handle_name name { ud with temp_number := some number } db uid now
      = some (ConvState.idle, { ud with temp_number := none },
          add_student db now uid number name) ∧
    (add_student db now uid number name).filter (keyMatch uid number)
      = [⟨uid, number, name, now⟩] := by
  refine ⟨?_, ?_, rfl, ?_⟩
  · simp [handle_number, hbad]
  · simp [handle_number, hnum]
  · have hnot : db.any (keyMatch uid number) = false := by
      rw [List.any_eq_false]
      intro r hr
      simp [habs r hr]
    unfold add_student
    rw [hnot]
    simp only [Bool.false_eq_true, if_false, List.filter_append]
    have hleft : db.filter (keyMatch uid number) = [] := by
      rw [List.filter_eq_nil_iff]
      intro a ha
      simp [habs a ha]
    rw [hleft]
    simp [keyMatch]

/-- Witness for C2: `"abc"` re-prompts; `"42"` then `"Alice"` leaves the
single record `(42, Alice)` and an idle conversation. -/
theorem C2_add_flow_witness :
    handle_number "abc" ⟨none, none, none⟩ = (ConvState.waiting_for_number, ⟨none, none, none⟩) ∧
    handle_number "42" ⟨none, none, none⟩
      = (ConvState.waiting_for_name, ⟨some "42", none, none⟩) ∧
    handle_name "Alice" ⟨some "42", none, none⟩ [] 7 0
      = some (ConvState.idle, ⟨none, none, none⟩, add_student [] 0 7 "42" "Alice") ∧
    (add_student [] 0 7 "42" "Alice").filter (keyMatch 7 "42") = [⟨7, "42", "Alice", 0⟩] :=
  C2_add_flow ⟨none, none, none⟩ [] 7 0 "abc" "42" "Alice" (by decide) (by decide)
    (by intro r hr; cases hr)

/-- C1: the delete conversation. Zero search matches end the conversation
with the table untouched; exactly one match is deleted immediately; several
matches store the number-to-name candidate map and move to the confirmation
state without deleting. In the confirmation state a reply that is not a
digit string or not a stored candidate number re-prompts, changing neither
the state, the candidates nor the table; a stored candidate number deletes
exactly the rows with that key, clears the candidates and ends the
conversation. -/
theorem C1_delete_disambiguation (db : Students) (uid : Int) (ident : String)
    (ud : UserData) (t : String) :
    (find_students db uid ident DEFAULT_SORT_ORDER = [] →
      handle_delete_identifier ident ud db uid = (ConvState.idle, ud, db)) ∧
    (∀ r, find_students db uid ident DEFAULT_SORT_ORDER = [r] →
      handle_delete_identifier ident ud db uid
        = (ConvState.idle, ud,
            db.filter (fun x => !(keyMatch uid r.student_number x)))) ∧
    (∀ r1 r2 rest, find_students db uid ident DEFAULT_SORT_ORDER = r1 :: r2 :: rest →
      handle_delete_identifier ident ud db uid
        = (ConvState.waiting_for_delete_confirmation,
            { ud with
                delete_candidates := some ((r1 :: r2 :: rest).map
                  (fun r => (r.student_number, r.student_name))) },
            db)) ∧
    (py_isdigit t = false ∨ (ud.delete_candidates.getD []).any (fun p => p.1 == t) = false →
      handle_delete_confirmation_number t ud db uid
        = (ConvState.waiting_for_delete_confirmation, ud, db)) ∧
    (py_isdigit t = true → (ud.delete_candidates.getD []).any (fun p => p.1 == t) = true →
      handle_delete_confirmation_number t ud db uid
        = (ConvState.idle, { ud with delete_candidates := none },
            db.filter (fun x => !(keyMatch uid t x)))) := by
  refine ⟨?_, ?_, ?_, ?_, ?_⟩
  · intro h
    unfold handle_delete_identifier
    rw [h]
  · intro r h
    unfold handle_delete_identifier
    rw [h]
    rfl
  · intro r1 r2 rest h
    unfold handle_delete_identifier
    rw [h]
  · intro h
    rcases h with h | h
    · simp [handle_delete_confirmation_number, h]
    · simp [handle_delete_confirmation_number, h, ite_self]
  · intro h1 h2
    simp [handle_delete_confirmation_number, h1, h2, delete_student]

/-- Witness for C1 at the spec's own example: two students named "Sam" with
numbers "1" and "2"; searching "Sam" moves to confirmation with both as
candidates, replying "9" re-prompts without deleting, replying "1" deletes
only that record and clears the candidates. -/
theorem C1_delete_disambiguation_witness :
    handle_delete_identifier "Sam" ⟨none, none, none⟩
        [⟨5, "1", "Sam", 0⟩, ⟨5, "2", "Sam", 1⟩] 5
      = (ConvState.waiting_for_delete_confirmation,
          ⟨none, some [("1", "Sam"), ("2", "Sam")], none⟩,
          [⟨5, "1", "Sam", 0⟩, ⟨5, "2", "Sam", 1⟩]) ∧
    handle_delete_confirmation_number "9" ⟨none, some [("1", "Sam"), ("2", "Sam")], none⟩
        [⟨5, "1", "Sam", 0⟩, ⟨5, "2", "Sam", 1⟩] 5
      = (ConvState.waiting_for_delete_confirmation,
          ⟨none, some [("1", "Sam"), ("2", "Sam")], none⟩,
          [⟨5, "1", "Sam", 0⟩, ⟨5, "2", "Sam", 1⟩]) ∧
    handle_delete_confirmation_number "1" ⟨none, some [("1", "Sam"), ("2", "Sam")], none⟩
        [⟨5, "1", "Sam", 0⟩, ⟨5, "2", "Sam", 1⟩] 5
      = (ConvState.idle, ⟨none, none, none⟩, [⟨5, "2", "Sam", 1⟩]) := by
  refine ⟨?_, ?_, ?_⟩
  · have h := (C1_delete_disambiguation [⟨5, "1", "Sam", 0⟩, ⟨5, "2", "Sam", 1⟩] 5 "Sam"
      ⟨none, none, none⟩ "").2.2.1 ⟨5, "1", "Sam", 0⟩ ⟨5, "2", "Sam", 1⟩ [] (by decide)
    exact h.trans (by decide)
  · have h := (C1_delete_disambiguation [⟨5, "1", "Sam", 0⟩, ⟨5, "2", "Sam", 1⟩] 5 ""
      ⟨none, some [("1", "Sam"), ("2", "Sam")], none⟩ "9").2.2.2.1 (Or.inr (by decide))
    exact h
  · have h := (C1_delete_disambiguation [⟨5, "1", "Sam", 0⟩, ⟨5, "2", "Sam", 1⟩] 5 ""
      ⟨none, some [("1", "Sam"), ("2", "Sam")], none⟩ "1").2.2.2.2 (by decide) (by decide)
    exact h.trans (by decide)

/-- C6: pressing the sort button of the already-active order leaves the
stored order untouched, runs no store query and issues no edit; pressing the
other button stores the new order, re-queries and requests an in-place edit
with the re-rendered list; and an edit whose content equals what is
displayed fails inside the transport with "Message is not modified", a
failure the handler swallows so the displayed message simply stays put. -/
theorem C6_sort_button_idempotent (ud : UserData) (db : Students) (uid : Int)
    (displayed : String × Option InlineKeyboardMarkup) :
    (ud.list_sort_order.getD DEFAULT_SORT_ORDER = "student_number" →
      list_button_callback "list_sort_student_number" ud db uid = ⟨ud, false, none⟩) ∧
    (ud.list_sort_order.getD DEFAULT_SORT_ORDER = "student_name" →
      list_button_callback "list_sort_student_name" ud db uid = ⟨ud, false, none⟩) ∧
    (ud.list_sort_order.getD DEFAULT_SORT_ORDER ≠ "student_name" →
      list_button_callback "list_sort_student_name" ud db uid
        = ⟨{ ud with list_sort_order := some "student_name" }, true,
            some (format_student_list (get_students db uid "student_name")
              "student_name")⟩) ∧
    (ud.list_sort_order.getD DEFAULT_SORT_ORDER ≠ "student_number" →
      list_button_callback "list_sort_student_number" ud db uid
        = ⟨{ ud with list_sort_order := some "student_number" }, true,
            some (format_student_list (get_students db uid "student_number")
              "student_number")⟩) ∧
    (∀ req, edit_message_text displayed req = Except.error "Message is not modified"
        ↔ req = displayed) ∧
    (∀ req, req = displayed → attempt_edit displayed req = displayed) := by
  refine ⟨?_, ?_, ?_, ?_, ?_, ?_⟩
  · intro h
    simp [list_button_callback, h]
  · intro h
    simp [list_button_callback, h]
  · intro h
    simp [list_button_callback, Ne.symm h]
  · intro h
    simp [list_button_callback, Ne.symm h]
  · intro req
    constructor
    · intro h
      by_contra hne
      simp [edit_message_text, hne] at h
    · intro h
      simp [edit_message_text, h]
  · intro req h
    simp [attempt_edit, edit_message_text, h]

/-- Witness for C6: with the order already `student_number`, pressing
"Sort by ID" does nothing; pressing "Sort by Name" re-renders; an identical
edit is swallowed leaving the displayed message unchanged. -/
theorem C6_sort_button_idempotent_witness :
    list_button_callback "list_sort_student_number" ⟨none, none, none⟩ [] 7
      = ⟨⟨none, none, none⟩, false, none⟩ ∧
    list_button_callback "list_sort_student_name" ⟨none, none, none⟩ [] 7
      = ⟨⟨none, none, some "student_name"⟩, true,
          some (format_student_list (get_students [] 7 "student_name") "student_name")⟩ ∧
    attempt_edit ("hello", none) ("hello", none) = ("hello", none) := by
  refine ⟨?_, ?_, ?_⟩
  · exact (C6_sort_button_idempotent ⟨none, none, none⟩ [] 7 ("hello", none)).1 (by decide)
  · exact (C6_sort_button_idempotent ⟨none, none, none⟩ [] 7 ("hello", none)).2.2.1 (by decide)
  · exact (C6_sort_button_idempotent ⟨none, none, none⟩ [] 7
      ("hello", none)).2.2.2.2.2 ("hello", none) rfl

/-- The row loop of `format_student_list` enumerates the records with
1-based indices. -/
theorem build_rows_eq_enumFrom : ∀ (n : Nat) (l : List StudentRow),
    build_rows n l = (List.enumFrom n l).map (fun p => format_row p.1 p.2)
  | _, [] => rfl
  | n, r :: rs => by
    simp [build_rows, List.enumFrom, build_rows_eq_enumFrom (n + 1) rs]

/-- C7: rendering the empty list yields the escaped literal "No students in
the database." and no control; rendering a non-empty list yields the title
naming the sort order, the fixed-width header and separator, and one row per
record carrying its 1-based index, its escaped number sliced to 15
characters and its escaped name sliced to 20 characters, plus the two-button
sort control; the control marks exactly the active order, and every reserved
character is escaped with a backslash. -/
theorem C7_render_list (students : List StudentRow) (so : String) :
    format_student_list [] so = (escape_markdown "No students in the database.", none) ∧
    (students ≠ [] →
      format_student_list students so
        = (list_title so ++ table_header ++ table_separator
            ++ String.intercalate "\n"
                ((List.enumFrom 1 students).map (fun p => format_row p.1 p.2)),
           some (sort_keyboard so))) ∧
    (∀ i r, format_row i r
        = "\x60" ++ padTo (escape_markdown (toString i)) 4
            ++ padTo (strTake (escape_markdown r.student_number) 15) 15
            ++ padTo (strTake (escape_markdown r.student_name) 20) 20 ++ "\x60") ∧
    (so = "student_number" →
      sort_keyboard so
        = [[⟨"Sort by ID ✅", "list_sort_student_number"⟩,
            ⟨"Sort by Name ", "list_sort_student_name"⟩]]) ∧
    (so = "student_name" →
      sort_keyboard so
        = [[⟨"Sort by ID ", "list_sort_student_number"⟩,
            ⟨"Sort by Name ✅", "list_sort_student_name"⟩]]) ∧
    (∀ c, c ∈ escape_chars → escape_markdown (String.mk [c]) = String.mk ['\\', c]) ∧
    (∀ c, c ∉ escape_chars → escape_markdown (String.mk [c]) = String.mk [c]) := by
  refine ⟨rfl, ?_, fun i r => rfl, ?_, ?_, ?_, ?_⟩
  · intro h
    unfold format_student_list
    rw [if_neg (by simpa using h), build_rows_eq_enumFrom]
  · intro h
    subst h
    rfl
  · intro h
    subst h
    rfl
  · intro c hc
    simp [escape_markdown, hc]
  · intro c hc
    simp [escape_markdown, hc]

/-- Witness for C7 at a concrete two-record list. -/
theorem C7_render_list_witness :
    format_student_list [⟨7, "42", "Alice", 0⟩, ⟨7, "7", "Bo", 1⟩] "student_number"
      = (list_title "student_number" ++ table_header ++ table_separator
          ++ String.intercalate "\n"
              [format_row 1 ⟨7, "42", "Alice", 0⟩, format_row 2 ⟨7, "7", "Bo", 1⟩],
         some [[⟨"Sort by ID ✅", "list_sort_student_number"⟩,
                ⟨"Sort by Name ", "list_sort_student_name"⟩]]) := by
  have h := (C7_render_list [⟨7, "42", "Alice", 0⟩, ⟨7, "7", "Bo", 1⟩]
    "student_number").2.1 (by decide)
  rw [h]
  rfl

/-! ## The `LIKE` pattern of `find_students` on wildcard-free queries -/

/-- `isPre` decides "is a prefix of". -/
theorem isPre_iff : ∀ q s : List Char, isPre q s = true ↔ ∃ t, s = q ++ t
  | [], s => by simp [isPre]
  | a :: q, [] => by simp [isPre]
  | a :: q, b :: s => by
    simp only [isPre, Bool.and_eq_true, beq_iff_eq, List.cons_append, List.cons.injEq]
    constructor
    · rintro ⟨ha, h⟩
      obtain ⟨t, rfl⟩ := (isPre_iff q s).mp h
      exact ⟨t, ha.symm, rfl⟩
    · rintro ⟨t, hb, hs⟩
      exact ⟨hb.symm, (isPre_iff q s).mpr ⟨t, hs⟩⟩

/-- Lexing `%` at the head of a pattern with a non-empty remainder. -/
theorem likeLex_pct_cons (x : Char) (rest : List Char) :
    likeLex ('%' :: x :: rest) = LikeTok.pct :: likeLex (x :: rest) := by
  simp [likeLex]

/-- A wildcard-free query followed by the closing `%` lexes to literal
tokens followed by the `%` token. -/
theorem likeLex_plain_append_pct : ∀ q : List Char,
    (∀ c ∈ q, c ≠ '%' ∧ c ≠ '_' ∧ c ≠ '\\') →
    likeLex (q ++ ['%']) = q.map LikeTok.lit ++ [LikeTok.pct]
  | [], _ => by simp [likeLex]
  | [a], h => by
    have ha := h a (by simp)
    simp [likeLex, ha.1, ha.2.1, ha.2.2]
  | a :: b :: q, h => by
    have ha := h a (by simp)
    have h' : ∀ c ∈ b :: q, c ≠ '%' ∧ c ≠ '_' ∧ c ≠ '\\' := by
      intro c hc
      exact h c (by simp at hc ⊢; tauto)
    have hrec := likeLex_plain_append_pct (b :: q) h'
    calc likeLex ((a :: b :: q) ++ ['%'])
        = LikeTok.lit a :: likeLex ((b :: q) ++ ['%']) := by
          simp [likeLex, ha.1, ha.2.1, ha.2.2]
      _ = LikeTok.lit a :: ((b :: q).map LikeTok.lit ++ [LikeTok.pct]) := by rw [hrec]
      _ = (a :: b :: q).map LikeTok.lit ++ [LikeTok.pct] := by simp

/-- Literal tokens followed by the `%` token match exactly the strings with
the literals as a prefix. -/
theorem likeTokMatch_lit_pct : ∀ q s : List Char,
    likeTokMatch (q.map LikeTok.lit ++ [LikeTok.pct]) s = isPre q s
  | [], s => by
    have hpre : isPre [] s = true := by simp [isPre]
    simp only [List.map_nil, List.nil_append, likeTokMatch, hpre]
    rw [List.any_eq_true]
    exact ⟨[], (List.mem_tails _ _).mpr ⟨s, by simp⟩, rfl⟩
  | a :: q, [] => by simp [likeTokMatch, isPre]
  | a :: q, c :: s => by
    simp only [List.map_cons, List.cons_append, likeTokMatch, isPre, List.append_eq]
    rw [likeTokMatch_lit_pct q s]

/-- The `%...%` pattern built from a wildcard-free query matches exactly
when the query is a prefix of some suffix of the string. -/
theorem likeMatch_pct_plain_pct (q : List Char)
    (hq : ∀ c ∈ q, c ≠ '%' ∧ c ≠ '_' ∧ c ≠ '\\') (s : List Char) :
    likeMatch ('%' :: (q ++ ['%'])) s = s.tails.any (fun t => isPre q t) := by
  unfold likeMatch
  have hl : likeLex ('%' :: (q ++ ['%']))
      = LikeTok.pct :: (q.map LikeTok.lit ++ [LikeTok.pct]) := by
    cases q with
    | nil => simp [likeLex]
    | cons b q2 =>
      rw [List.cons_append, likeLex_pct_cons, ← List.cons_append,
        likeLex_plain_append_pct _ hq]
  rw [hl]
  simp only [likeTokMatch]
  simp only [likeTokMatch_lit_pct]

/-- Having a prefix among the suffixes is exactly containment. -/
theorem tails_any_isPre (q s : List Char) :
    s.tails.any (fun t => isPre q t) = true ↔ containsSub q s := by
  rw [List.any_eq_true]
  constructor
  · rintro ⟨t, ht, hp⟩
    rw [List.mem_tails] at ht
    obtain ⟨pre, rfl⟩ := ht
    obtain ⟨post, rfl⟩ := (isPre_iff q t).mp hp
    exact ⟨pre, post, by simp⟩
  · rintro ⟨pre, post, rfl⟩
    refine ⟨q ++ post, ?_, ?_⟩
    · rw [List.mem_tails]
      exact ⟨pre, by simp⟩
    · exact (isPre_iff q _).mpr ⟨post, rfl⟩

/-- C5 (amended): for a query containing no `LIKE` metacharacter
(`%`, `_`, `\`, after lower-casing), `find_students` returns exactly the
owner's rows whose number equals the query exactly or whose lower-cased
name contains the lower-cased query contiguously, sorted ascending by the
requested column. -/
theorem C5_search_matches (db : Students) (uid : Int) (q ob : String)
    (hplain : ∀ c ∈ lowerChars q, c ≠ '%' ∧ c ≠ '_' ∧ c ≠ '\\') :
    (∀ r, r ∈ find_students db uid q ob ↔
      r ∈ db ∧ r.user_id = uid ∧
        (r.student_number = q ∨ containsSub (lowerChars q) (lowerChars r.student_name))) ∧
    List.Sorted (rowRel (interpolated_order ob)) (find_students db uid q ob) := by
  constructor
  · intro r
    unfold find_students
    rw [List.mem_insertionSort, List.mem_filter]
    simp only [Bool.and_eq_true, beq_iff_eq, findMatch, Bool.or_eq_true]
    rw [likeMatch_pct_plain_pct _ hplain, tails_any_isPre]
  · exact List.sorted_insertionSort _ _

/-- Witness for C5 at the spec's example: searching `"7"` finds both the
row with number `"7"` and the row named `"ONE7Y"`. -/
theorem C5_search_matches_witness :
    (⟨7, "1", "ONE7Y", 1⟩ : StudentRow)
      ∈ find_students [⟨7, "7", "Bob", 0⟩, ⟨7, "1", "ONE7Y", 1⟩] 7 "7" "student_number" ∧
    (⟨7, "7", "Bob", 0⟩ : StudentRow)
      ∈ find_students [⟨7, "7", "Bob", 0⟩, ⟨7, "1", "ONE7Y", 1⟩] 7 "7" "student_number" := by
  constructor
  · exact ((C5_search_matches [⟨7, "7", "Bob", 0⟩, ⟨7, "1", "ONE7Y", 1⟩] 7 "7"
      "student_number" (by decide)).1 ⟨7, "1", "ONE7Y", 1⟩).mpr
      ⟨by decide, rfl, Or.inr ⟨['o', 'n', 'e'], ['y'], by decide⟩⟩
  · exact ((C5_search_matches [⟨7, "7", "Bob", 0⟩, ⟨7, "1", "ONE7Y", 1⟩] 7 "7"
      "student_number" (by decide)).1 ⟨7, "7", "Bob", 0⟩).mpr
      ⟨by decide, rfl, Or.inl rfl⟩

/-- Counterexample to C5 as stated for arbitrary queries: the query `"%"`
is embedded raw in the `LIKE` pattern, so it matches the record
`(1, Bob)` although `"1" ≠ "%"` and "Bob" does not contain the character
`%` at all. -/
theorem C5_counterexample_wildcard :
    find_students [⟨7, "1", "Bob", 0⟩] 7 "%" "student_number" = [⟨7, "1", "Bob", 0⟩] ∧
    ¬((⟨7, "1", "Bob", 0⟩ : StudentRow).student_number = "%" ∨
        containsSub (lowerChars "%")
          (lowerChars (⟨7, "1", "Bob", 0⟩ : StudentRow).student_name)) := by
  constructor
  · decide
  · rintro (h | ⟨pre, post, h⟩)
    · exact absurd h (by decide)
    · have hmem : '%' ∈ lowerChars "Bob" := by
        rw [show lowerChars (⟨7, "1", "Bob", 0⟩ : StudentRow).student_name
            = lowerChars "Bob" from rfl] at h
        rw [h]
        exact List.mem_append.mpr (Or.inl (List.mem_append.mpr (Or.inr (by decide))))
      exact absurd hmem (by decide)

/-! ## The add-conversation invariant (C10) -/

/-- `add_student` preserves any property of the stored numbers that the
inserted number itself satisfies. -/
theorem add_student_preserves (P : String → Prop) (db : Students) (now : Nat)
    (uid : Int) (number name : String)
    (hdb : ∀ r ∈ db, P r.student_number) (hn : P number) :
    ∀ r ∈ add_student db now uid number name, P r.student_number := by
  intro r hr
  unfold add_student at hr
  split at hr
  · rw [List.mem_map] at hr
    obtain ⟨x, hx, rfl⟩ := hr
    split
    · exact hdb x hx
    · exact hdb x hx
  · rw [List.mem_append] at hr
    rcases hr with hr | hr
    · exact hdb r hr
    · rw [List.mem_singleton] at hr
      subst hr
      exact hn

/-- C10: every record the add conversation ever stores has an all-digit
number — the number-waiting step rejects anything else and the final step
only stores the validated pending number — while the store itself accepts a
non-digit number without complaint. -/
theorem C10_add_flow_digit_invariant :
    (∀ (s : ConvState × UserData × Students) (uid : Int) (now : Nat) (ev : AddEvent),
      AddInv s → ∃ s2, add_step s uid now ev = some s2 ∧ AddInv s2) ∧
    (add_student [] 0 0 "ab" "X" = [⟨0, "ab", "X", 0⟩] ∧ py_isdigit "ab" = false) := by
  constructor
  · rintro ⟨st, ud, db⟩ uid now ev ⟨h1, h2, h3⟩
    cases ev with
    | cmd_add =>
      cases st <;> refine ⟨_, rfl, h1, ?_, h3⟩ <;> simp_all
    | cmd_cancel =>
      cases st <;> refine ⟨_, rfl, ?_, ?_, h3⟩ <;> simp_all [cancel]
    | message t =>
      cases st with
      | waiting_for_number =>
        by_cases hd : py_isdigit t = true
        · refine ⟨_, rfl, ?_, ?_, h3⟩
          · intro n hn
            simp only [handle_number, hd, Bool.not_true, Bool.false_eq_true, if_false] at hn
            simp at hn
            rw [← hn]
            exact hd
          · intro
            simp [handle_number, hd]
        · refine ⟨_, rfl, ?_, ?_, h3⟩
          · intro n hn
            simp only [handle_number, Bool.not_eq_true] at hn
            rw [Bool.not_eq_true] at hd
            simp [hd] at hn
            exact h1 n hn
          · intro hst
            rw [Bool.not_eq_true] at hd
            simp [handle_number, hd] at hst
      | waiting_for_name =>
        rcases hopt : ud.temp_number with _ | n
        · exact absurd hopt (h2 rfl)
        · refine ⟨(ConvState.idle, { ud with temp_number := none },
              add_student db now uid n t), ?_, ?_, ?_, ?_⟩
          · simp [add_step, handle_name, hopt]
          · intro m hm
            simp at hm
          · intro h
            simp at h
          · exact add_student_preserves (fun x => py_isdigit x = true) db now uid n t h3
              (h1 n hopt)
      | idle => exact ⟨_, rfl, h1, by simp_all, h3⟩
      | waiting_for_delete_identifier => exact ⟨_, rfl, h1, by simp_all, h3⟩
      | waiting_for_delete_confirmation => exact ⟨_, rfl, h1, by simp_all, h3⟩
  · exact ⟨by decide, by decide⟩

/-- Witness for C10: one step from the number-waiting state on the digit
input "42" succeeds and keeps the invariant. -/
theorem C10_add_flow_digit_invariant_witness :
    ∃ s2, add_step (ConvState.waiting_for_number, ⟨none, none, none⟩, []) 7 0
        (AddEvent.message "42") = some s2 ∧ AddInv s2 :=
  C10_add_flow_digit_invariant.1 (ConvState.waiting_for_number, ⟨none, none, none⟩, []) 7 0
    (AddEvent.message "42")
    ⟨(by intro n hn; cases hn), (by intro h; cases h), (by intro r hr; cases hr)⟩
